import Mathlib

/-!
Verification of the inventory-optimization core of the
Supply-Chain-Dashboard-InventoryTracker repository.

The Python source (`src/inventory_engine.py`, `src/alert_engine.py`,
`src/utils.py`) is shallowly embedded below.  Numeric values are modelled
over `ℚ` (exact arithmetic; Python's binary floats are idealised as exact
reals/rationals).  Python's `round` builtin (banker's rounding, ties to
even) is modelled by `rnd`; `round(x, d)` by `rnd (x * 10^d) / 10^d`.
Python exceptions are modelled with `Except`: `EngineError.invalidInput`
is the explicit `ValueError("Holding cost per unit must be > 0")` raised
by `eoq`, and `EngineError.mathDomain` is the `ValueError("math domain
error")` that `math.sqrt` raises on a negative argument.  Rational
division in Lean totalises `x / 0 = 0`; no theorem below depends on a
division-by-zero input except where the source itself guards it.
-/

/-- Banker's rounding (round half to even) on `ℚ`, the semantics of
Python's builtin `round` for exact values.  Away from ties it agrees with
Mathlib's `round` (round half up). -/
def rnd (x : ℚ) : ℤ :=
  if Int.fract x = 1/2 then (if ⌊x⌋ % 2 = 0 then ⌊x⌋ else ⌊x⌋ + 1)
  else round x

/-- Python's `round(x, 1)` on exact values. -/
def round1 (x : ℚ) : ℚ := (rnd (x * 10) : ℚ) / 10

/-- Python's `round(x, 2)` on exact values. -/
def round2 (x : ℚ) : ℚ := (rnd (x * 100) : ℚ) / 100

/-- Python's `round(x, 4)` on exact values. -/
def round4 (x : ℚ) : ℚ := (rnd (x * 10000) : ℚ) / 10000

/-- Floor of `√q` for a rational `q ≥ 0`, computed on naturals. -/
def sqrtFloorNat (q : ℚ) : ℕ := Nat.sqrt (Int.toNat ⌊q⌋)

/-- Round-half-even of `√q` for a rational radicand `q ≥ 0`, computed
exactly by integer comparisons: this is the value Python's
`round(math.sqrt(q))` denotes in exact-real semantics. -/
def ratSqrtRound (q : ℚ) : ℕ :=
  if 4 * q < ((2 * sqrtFloorNat q + 1 : ℕ) : ℚ) ^ 2 then sqrtFloorNat q
  else if 4 * q = ((2 * sqrtFloorNat q + 1 : ℕ) : ℚ) ^ 2 then
    (if sqrtFloorNat q % 2 = 0 then sqrtFloorNat q else sqrtFloorNat q + 1)
  else sqrtFloorNat q + 1

/-- Round-half-even of `c * √m` (`m ≥ 0`), computed exactly: for `c ≥ 0`
this is `ratSqrtRound (c² m)` since `c√m = √(c²m)`, and banker's rounding
is symmetric under negation. -/
def rndMulSqrt (c m : ℚ) : ℤ :=
  if c < 0 then -(ratSqrtRound (c ^ 2 * m) : ℤ) else (ratSqrtRound (c ^ 2 * m) : ℤ)

/-- Error taxonomy of the engine: `invalidInput` is the explicit
`ValueError("Holding cost per unit must be > 0")` raised by `eoq`
(the spec's `InvalidInput`); `mathDomain` is the `ValueError` raised by
`math.sqrt` on a negative argument. -/
inductive EngineError where
  | invalidInput : EngineError
  | mathDomain : EngineError
deriving DecidableEq, Repr

/-- Source `eoq`: `int(round(math.sqrt(2*D*S/H)))`, raising when `H ≤ 0`. -/
def eoq (annual_demand ordering_cost holding_cost_pu : ℚ) : Except EngineError ℕ :=
  if holding_cost_pu ≤ 0 then .error .invalidInput
  else if 2 * annual_demand * ordering_cost / holding_cost_pu < 0 then .error .mathDomain
  else .ok (ratSqrtRound (2 * annual_demand * ordering_cost / holding_cost_pu))

/-- Source `safety_stock`: `int(round(z_score * std_dev * math.sqrt(lead_time_days / days_per_month)))`. -/
def safety_stock (std_dev lead_time_days z_score days_per_month : ℚ) :
    Except EngineError ℤ :=
  if lead_time_days / days_per_month < 0 then .error .mathDomain
  else .ok (rndMulSqrt (z_score * std_dev) (lead_time_days / days_per_month))

/-- Source `reorder_point`: `int(round(annual_demand / working_days * lead_time_days + ss))`. -/
def reorder_point (annual_demand working_days lead_time_days : ℚ) (ss : ℤ) : ℤ :=
  rnd (annual_demand / working_days * lead_time_days + (ss : ℚ))

/-- Source `daily_demand`: `round(annual_demand / working_days, 4)`. -/
def daily_demand (annual_demand working_days : ℚ) : ℚ :=
  round4 (annual_demand / working_days)

/-- Source `annual_holding_cost`: `round((eoq_qty / 2 + ss) * holding_cost_pu, 2)`. -/
def annual_holding_cost (eoq_qty ss holding_cost_pu : ℚ) : ℚ :=
  round2 ((eoq_qty / 2 + ss) * holding_cost_pu)

/-- Source `annual_ordering_cost`: `round((annual_demand / eoq_qty) * ordering_cost, 2)`
when `eoq_qty > 0`, else `0.0`. -/
def annual_ordering_cost (annual_demand eoq_qty ordering_cost : ℚ) : ℚ :=
  if 0 < eoq_qty then round2 (annual_demand / eoq_qty * ordering_cost) else 0

/-- Source `total_inventory_cost`: `round(ahc + aoc, 2)`. -/
def total_inventory_cost (ahc aoc : ℚ) : ℚ := round2 (ahc + aoc)

/-- Source `days_of_supply`: `round(current_stock / dd, 1)` when `dd > 0`, else `0.0`,
with `dd = ann_demand / working_days`. -/
def days_of_supply (current_stock : ℤ) (ann_demand working_days : ℚ) : ℚ :=
  if 0 < ann_demand / working_days
  then round1 ((current_stock : ℚ) / (ann_demand / working_days)) else 0

/-- Source `stockout_risk`: `max(0.0, round((1 - current_stock / rop) * 100, 1))`
when `rop > 0`, else `0.0`. -/
def stockout_risk (current_stock rop : ℤ) : ℚ :=
  if 0 < rop then max 0 (round1 ((1 - (current_stock : ℚ) / (rop : ℚ)) * 100)) else 0

/-- Source `alert_status`: the inline tag the pipeline attaches to each row. -/
def alert_status (current_stock ss rop eoq_qty : ℤ) : String :=
  if current_stock < ss then "🔴 CRITICAL – Below Safety Stock"
  else if current_stock < rop then "🟠 REORDER NOW"
  else if rop + eoq_qty < current_stock then "🟡 EXCESS STOCK"
  else "🟢 HEALTHY"

/-- Source `_action`: the recommended-action string keyed to the same four-way
classification (via `excess = max(0, cs - (rop + eoq))`). -/
def _action (cs ss rop excess : ℤ) : String :=
  if cs < ss then "Emergency order now"
  else if cs < rop then "Place replenishment order"
  else if 0 < excess then "Review demand; consider promotion"
  else "No action needed"

/-- One input row of the parameters table (`CategoryParams` in the spec):
columns `Category, Unit_Cost_INR, Holding_Cost_Pct, Annual_Demand,
Demand_StdDev, Current_Stock`.  `Current_Stock` is an integer per the data
model (`int(r["Current_Stock"])` in the pipeline is the identity on it). -/
structure CategoryParams where
  category : String
  unit_cost_inr : ℚ
  holding_cost_pct : ℚ
  annual_demand : ℚ
  demand_std_dev : ℚ
  current_stock : ℤ
deriving Repr

/-- One output row of `run_optimization` (`CategoryMetrics` in the spec). -/
structure CategoryMetrics where
  category : String
  unit_cost_inr : ℚ
  holding_cost_per_unit : ℚ
  annual_demand : ℚ
  demand_std_dev : ℚ
  daily_demand : ℚ
  eoq_units : ℕ
  safety_stock : ℤ
  reorder_point : ℤ
  current_stock : ℤ
  days_of_supply : ℚ
  stockout_risk_pct : ℚ
  excess_stock : ℤ
  excess_holding_cost_inr : ℚ
  annual_holding_cost_inr : ℚ
  annual_ordering_cost_inr : ℚ
  total_inventory_cost_inr : ℚ
  alert_status : String
  recommended_action : String
deriving Repr

/-- Exception-propagating map over the rows of a table: models a Python
`for` loop that appends one output row per input row and lets any
exception abort the whole call (all-or-nothing, no partial output). -/
def exceptMap (f : α → Except EngineError β) : List α → Except EngineError (List β)
  | [] => .ok []
  | a :: l => do
    let b ← f a
    let bs ← exceptMap f l
    return b :: bs

/-- The enriched output row the loop body of `run_optimization` builds
from an input row `r` once `eoq` has returned `eq` and `safety_stock` has
returned `ss` (the remaining per-row locals `hc_pu`, `rop`, `cs`,
`excess`, `ahc`, `aoc` are inlined). -/
def mkMetrics (ordering_cost lead_time_days working_days : ℚ)
    (r : CategoryParams) (eq : ℕ) (ss : ℤ) : CategoryMetrics :=
  { category := r.category
    unit_cost_inr := r.unit_cost_inr
    holding_cost_per_unit := round2 (r.unit_cost_inr * r.holding_cost_pct)
    annual_demand := r.annual_demand
    demand_std_dev := r.demand_std_dev
    daily_demand := daily_demand r.annual_demand working_days
    eoq_units := eq
    safety_stock := ss
    reorder_point := reorder_point r.annual_demand working_days lead_time_days ss
    current_stock := r.current_stock
    days_of_supply := days_of_supply r.current_stock r.annual_demand working_days
    stockout_risk_pct := stockout_risk r.current_stock
      (reorder_point r.annual_demand working_days lead_time_days ss)
    excess_stock := max 0 (r.current_stock -
      (reorder_point r.annual_demand working_days lead_time_days ss + (eq : ℤ)))
    excess_holding_cost_inr := round2 ((max 0 (r.current_stock -
      (reorder_point r.annual_demand working_days lead_time_days ss + (eq : ℤ))) : ℚ) *
      (r.unit_cost_inr * r.holding_cost_pct))
    annual_holding_cost_inr := annual_holding_cost (eq : ℚ) (ss : ℚ)
      (r.unit_cost_inr * r.holding_cost_pct)
    annual_ordering_cost_inr := annual_ordering_cost r.annual_demand (eq : ℚ) ordering_cost
    total_inventory_cost_inr := total_inventory_cost
      (annual_holding_cost (eq : ℚ) (ss : ℚ) (r.unit_cost_inr * r.holding_cost_pct))
      (annual_ordering_cost r.annual_demand (eq : ℚ) ordering_cost)
    alert_status := alert_status r.current_stock ss
      (reorder_point r.annual_demand working_days lead_time_days ss) (eq : ℤ)
    recommended_action := _action r.current_stock ss
      (reorder_point r.annual_demand working_days lead_time_days ss)
      (max 0 (r.current_stock -
        (reorder_point r.annual_demand working_days lead_time_days ss + (eq : ℤ)))) }

/-- The body of `run_optimization`'s loop for one row: `eoq` and
`safety_stock` may raise; the rest is `mkMetrics`. -/
def processRow (ordering_cost z_score lead_time_days working_days : ℚ)
    (r : CategoryParams) : Except EngineError CategoryMetrics := do
  let eq ← eoq r.annual_demand ordering_cost (r.unit_cost_inr * r.holding_cost_pct)
  let ss ← safety_stock r.demand_std_dev lead_time_days z_score 30
  return mkMetrics ordering_cost lead_time_days working_days r eq ss

/-- Source `run_optimization`: one `CategoryMetrics` row per input row, in input
order; any per-row exception aborts the whole run. -/
def run_optimization (params : List CategoryParams)
    (ordering_cost z_score lead_time_days working_days : ℚ) :
    Except EngineError (List CategoryMetrics) :=
  exceptMap (processRow ordering_cost z_score lead_time_days working_days) params

/-- The four alert tiers. -/
inductive Tier where
  | CRITICAL : Tier
  | REORDER : Tier
  | EXCESS : Tier
  | HEALTHY : Tier
deriving DecidableEq, Repr

/-- Modelled from the spec: the four-way classification evaluated in
strict order with first match winning (`§4.2`): `currentStock <
safetyStock → CRITICAL`, else `currentStock < reorderPoint → REORDER`,
else `excessStock > 0 → EXCESS`, else `HEALTHY`. -/
def specTier (currentStock safetyStock reorderPoint excessStock : ℤ) : Tier :=
  if currentStock < safetyStock then .CRITICAL
  else if currentStock < reorderPoint then .REORDER
  else if 0 < excessStock then .EXCESS
  else .HEALTHY

/-- The `Alert_Status` string the pipeline attaches for each tier. -/
def tierStatusString : Tier → String
  | .CRITICAL => "🔴 CRITICAL – Below Safety Stock"
  | .REORDER => "🟠 REORDER NOW"
  | .EXCESS => "🟡 EXCESS STOCK"
  | .HEALTHY => "🟢 HEALTHY"

/-- The `Recommended_Action` string the pipeline attaches for each tier. -/
def tierActionString : Tier → String
  | .CRITICAL => "Emergency order now"
  | .REORDER => "Place replenishment order"
  | .EXCESS => "Review demand; consider promotion"
  | .HEALTHY => "No action needed"

/-- Source `ALERT_THRESHOLDS`: tier → numeric priority. -/
def ALERT_THRESHOLDS : List (String × ℕ) :=
  [("CRITICAL", 1), ("REORDER", 2), ("EXCESS", 3), ("HEALTHY", 4)]

/-- Source `classify_alert`: the classifier's independent re-derivation of the
tier from a `CategoryMetrics` row. -/
def classify_alert (row : CategoryMetrics) : String :=
  if row.current_stock < row.safety_stock then "CRITICAL"
  else if row.current_stock < row.reorder_point then "REORDER"
  else if 0 < row.excess_stock then "EXCESS"
  else "HEALTHY"

/-- Source `_action_message`: per-row action text (f-strings rendered with
`toString` on the numeric fields). -/
def _action_message (level : String) (eoq_units : ℕ) (excess_stock : ℤ) : String :=
  if level = "CRITICAL" then
    "🔴 Place EMERGENCY order of " ++ toString eoq_units ++ " units immediately"
  else if level = "REORDER" then
    "🟠 Place standard replenishment order of " ++ toString eoq_units ++
      " units within 2 days"
  else if level = "EXCESS" then
    "🟡 Review " ++ toString excess_stock ++
      " excess units — consider promotion or markdown"
  else "🟢 No action required"

/-- One row of the alert report (`AlertRecord` in the spec); the
`Generated_At` timestamp is threaded in as a parameter `now`. -/
structure AlertRecord where
  generated_at : String
  category : String
  current_stock : ℤ
  safety_stock : ℤ
  reorder_point : ℤ
  eoq_units : ℕ
  days_of_supply : ℚ
  stockout_risk_pct : ℚ
  alert_level : String
  priority : ℕ
  action_message : String
deriving Repr

/-- The enrichment `generate_alerts` performs on each row before
filtering: level, priority (dict lookup; every classifier output is a
key), timestamp and action message. -/
def enrichAlert (now : String) (m : CategoryMetrics) : AlertRecord :=
  { generated_at := now
    category := m.category
    current_stock := m.current_stock
    safety_stock := m.safety_stock
    reorder_point := m.reorder_point
    eoq_units := m.eoq_units
    days_of_supply := m.days_of_supply
    stockout_risk_pct := m.stockout_risk_pct
    alert_level := classify_alert m
    priority := ((ALERT_THRESHOLDS.lookup (classify_alert m)).getD 0)
    action_message := _action_message (classify_alert m) m.eoq_units m.excess_stock }

/-- Source `generate_alerts`: enrich every row, drop the HEALTHY ones, sort the
rest ascending by priority (`sort_values("Priority")`; any correct sort is
an adequate model since only sortedness is observed). -/
def generate_alerts (now : String) (inv : List CategoryMetrics) : List AlertRecord :=
  List.insertionSort (fun a b => a.priority ≤ b.priority)
    ((inv.map (enrichAlert now)).filter (fun a => a.alert_level ≠ "HEALTHY"))

/-- The tier named by each `Alert_Status` string of the pipeline. -/
def statusLevel (s : String) : String :=
  if s = "🔴 CRITICAL – Below Safety Stock" then "CRITICAL"
  else if s = "🟠 REORDER NOW" then "REORDER"
  else if s = "🟡 EXCESS STOCK" then "EXCESS"
  else if s = "🟢 HEALTHY" then "HEALTHY"
  else ""

/-- A row the pipeline accepts (its holding cost per unit is `1 > 0`)
whose demand standard deviation is negative. -/
def pNegSigma : CategoryParams :=
  { category := "Electronics", unit_cost_inr := 10, holding_cost_pct := 1/10,
    annual_demand := 0, demand_std_dev := -2, current_stock := 0 }

/-- An all-healthy input row with non-negative fields. -/
def pGood : CategoryParams :=
  { category := "Electronics", unit_cost_inr := 10, holding_cost_pct := 1/10,
    annual_demand := 0, demand_std_dev := 0, current_stock := 5 }

/-- The boolean row-masks summed by `alert_summary_stats`. -/
def critB (m : CategoryMetrics) : Bool := decide (m.current_stock < m.safety_stock)

def reorB (m : CategoryMetrics) : Bool :=
  decide (m.safety_stock ≤ m.current_stock ∧ m.current_stock < m.reorder_point)

def excB (m : CategoryMetrics) : Bool := decide (0 < m.excess_stock)

def healthyB (m : CategoryMetrics) : Bool := decide (classify_alert m = "HEALTHY")

/-- Aggregate KPI counts (`AlertSummary` dict in the source). -/
structure AlertSummary where
  total_products : ℕ
  critical : ℕ
  reorder : ℕ
  excess : ℕ
  healthy : ℤ
  avg_days_supply : ℚ
  total_excess_cost : ℚ
deriving Repr

/-- Source `alert_summary_stats`: KPI counts over the metrics table; `healthy`
is the residual `total - critical - reorder - excess`. -/
def alert_summary_stats (inv : List CategoryMetrics) : AlertSummary :=
  { total_products := inv.length
    critical := inv.countP critB
    reorder := inv.countP reorB
    excess := inv.countP excB
    healthy := (inv.length : ℤ) - inv.countP critB - inv.countP reorB - inv.countP excB
    avg_days_supply := round1 ((inv.map CategoryMetrics.days_of_supply).sum / inv.length)
    total_excess_cost := round2 ((inv.map CategoryMetrics.excess_holding_cost_inr).sum) }

/-- One row of the comparator output (`SavingsRecord` in the spec). -/
structure SavingsRecord where
  category : String
  before_cost_inr : ℚ
  after_cost_inr : ℚ
  saving_inr : ℚ
  saving_pct : ℚ
deriving Repr

/-- The per-category comparator row once `safety_stock` returned `ss` and
`eoq` returned `eq` (locals `hc_pu`, `cost_before`, `cost_after`,
`saving_pct` inlined). -/
def mkSavings (baseline_order_qty ordering_cost : ℚ)
    (r : CategoryParams) (eq : ℕ) (ss : ℤ) : SavingsRecord :=
  { category := r.category
    before_cost_inr := total_inventory_cost
      (annual_holding_cost baseline_order_qty (ss : ℚ) (r.unit_cost_inr * r.holding_cost_pct))
      (annual_ordering_cost r.annual_demand baseline_order_qty ordering_cost)
    after_cost_inr := total_inventory_cost
      (annual_holding_cost (eq : ℚ) (ss : ℚ) (r.unit_cost_inr * r.holding_cost_pct))
      (annual_ordering_cost r.annual_demand (eq : ℚ) ordering_cost)
    saving_inr := round2 (total_inventory_cost
      (annual_holding_cost baseline_order_qty (ss : ℚ) (r.unit_cost_inr * r.holding_cost_pct))
      (annual_ordering_cost r.annual_demand baseline_order_qty ordering_cost) -
      total_inventory_cost
      (annual_holding_cost (eq : ℚ) (ss : ℚ) (r.unit_cost_inr * r.holding_cost_pct))
      (annual_ordering_cost r.annual_demand (eq : ℚ) ordering_cost))
    saving_pct := round1 (if 0 < total_inventory_cost
        (annual_holding_cost baseline_order_qty (ss : ℚ) (r.unit_cost_inr * r.holding_cost_pct))
        (annual_ordering_cost r.annual_demand baseline_order_qty ordering_cost)
      then (total_inventory_cost
          (annual_holding_cost baseline_order_qty (ss : ℚ) (r.unit_cost_inr * r.holding_cost_pct))
          (annual_ordering_cost r.annual_demand baseline_order_qty ordering_cost) -
        total_inventory_cost
          (annual_holding_cost (eq : ℚ) (ss : ℚ) (r.unit_cost_inr * r.holding_cost_pct))
          (annual_ordering_cost r.annual_demand (eq : ℚ) ordering_cost)) /
        total_inventory_cost
          (annual_holding_cost baseline_order_qty (ss : ℚ) (r.unit_cost_inr * r.holding_cost_pct))
          (annual_ordering_cost r.annual_demand baseline_order_qty ordering_cost) * 100
      else 0) }

/-- The loop body of `cost_savings_analysis` for one row (note: here
`safety_stock` is evaluated before `eoq`, as in the source, so its error
would surface first). -/
def savingsRow (baseline_order_qty ordering_cost lead_time_days z_score : ℚ)
    (r : CategoryParams) : Except EngineError SavingsRecord := do
  let ss ← safety_stock r.demand_std_dev lead_time_days z_score 30
  let eq ← eoq r.annual_demand ordering_cost (r.unit_cost_inr * r.holding_cost_pct)
  return mkSavings baseline_order_qty ordering_cost r eq ss

/-- The synthetic TOTAL row appended by `cost_savings_analysis`: sums of
the per-category before/after costs, saving and saving% recomputed from
those aggregate sums (Python computes `(tb - ta) / tb * 100` unguarded;
over `ℚ` a zero `tb` yields `0` where Python would produce NaN — the C3
theorem therefore assumes `0 < tb`). -/
def totalRow (rows : List SavingsRecord) : SavingsRecord :=
  { category := "TOTAL"
    before_cost_inr := (rows.map SavingsRecord.before_cost_inr).sum
    after_cost_inr := (rows.map SavingsRecord.after_cost_inr).sum
    saving_inr := round2 ((rows.map SavingsRecord.before_cost_inr).sum -
      (rows.map SavingsRecord.after_cost_inr).sum)
    saving_pct := round1 (((rows.map SavingsRecord.before_cost_inr).sum -
        (rows.map SavingsRecord.after_cost_inr).sum) /
      (rows.map SavingsRecord.before_cost_inr).sum * 100) }

/-- Source `cost_savings_analysis`: per-category rows in input order, then the
aggregate TOTAL row appended last.  (`working_days` is accepted but, as in
the source, unused.) -/
def cost_savings_analysis (params : List CategoryParams)
    (baseline_order_qty ordering_cost lead_time_days z_score working_days : ℚ) :
    Except EngineError (List SavingsRecord) := do
  let rows ← exceptMap (savingsRow baseline_order_qty ordering_cost lead_time_days z_score) params
  return rows ++ [totalRow rows]

/-- Table used to exhibit that the TOTAL saving% is the aggregate ratio
and not the mean of the per-row percentages. -/
def savA : CategoryParams :=
  { category := "A", unit_cost_inr := 1, holding_cost_pct := 1,
    annual_demand := 2, demand_std_dev := 0, current_stock := 0 }

def savB : CategoryParams :=
  { category := "B", unit_cost_inr := 1, holding_cost_pct := 1,
    annual_demand := 8, demand_std_dev := 0, current_stock := 0 }

/-- One row of `combined_report`'s output: the metrics row plus the two
joined alert columns.  `none` means the column is absent from the output
table (which is what happens to the whole table when the alert table is
empty — the `fillna` defaulting is skipped). -/
structure CombinedRow where
  metrics : CategoryMetrics
  alert_level : Option String
  action_message : Option String
deriving Repr

/-- Source `combined_report`: when the alert table is empty, the metrics table is
returned unchanged (no alert columns); otherwise a left join on
`Category` (unique alert categories assumed; `find?` takes the first
match) with missing alert fields defaulted to `HEALTHY` /
`"No action needed"`. -/
def combined_report (inv : List CategoryMetrics) (alerts : List AlertRecord) :
    List CombinedRow :=
  if alerts.isEmpty then inv.map (fun m => ⟨m, none, none⟩)
  else inv.map (fun m =>
    match alerts.find? (fun a => a.category == m.category) with
    | some a => ⟨m, some a.alert_level, some a.action_message⟩
    | none => ⟨m, some "HEALTHY", some "No action needed"⟩)

/-- A HEALTHY metrics row used as concrete input. -/
def mHealthy : CategoryMetrics :=
  { category := "Electronics", unit_cost_inr := 10, holding_cost_per_unit := 1,
    annual_demand := 0, demand_std_dev := 0, daily_demand := 0, eoq_units := 0,
    safety_stock := 0, reorder_point := 0, current_stock := 5, days_of_supply := 0,
    stockout_risk_pct := 0, excess_stock := 0, excess_holding_cost_inr := 0,
    annual_holding_cost_inr := 0, annual_ordering_cost_inr := 0,
    total_inventory_cost_inr := 0, alert_status := "🟢 HEALTHY",
    recommended_action := "No action needed" }

/-- An alert row whose category matches no metrics row below. -/
def aOther : AlertRecord :=
  { generated_at := "2025-02-01", category := "Other", current_stock := 0,
    safety_stock := 1, reorder_point := 0, eoq_units := 0, days_of_supply := 0,
    stockout_risk_pct := 0, alert_level := "CRITICAL", priority := 1,
    action_message := "🔴 Place EMERGENCY order of 0 units immediately" }

/-- A CRITICAL metrics row (`current_stock < safety_stock`). -/
def mrowCrit : CategoryMetrics :=
  { category := "Electronics", unit_cost_inr := 10, holding_cost_per_unit := 1,
    annual_demand := 0, demand_std_dev := 0, daily_demand := 0, eoq_units := 0,
    safety_stock := 1, reorder_point := 0, current_stock := 0, days_of_supply := 0,
    stockout_risk_pct := 0, excess_stock := 0, excess_holding_cost_inr := 0,
    annual_holding_cost_inr := 0, annual_ordering_cost_inr := 0,
    total_inventory_cost_inr := 0,
    alert_status := "🔴 CRITICAL – Below Safety Stock",
    recommended_action := "Emergency order now" }

theorem le_rnd (x : ℚ) : x - 1/2 ≤ (rnd x : ℚ) := by
  unfold rnd
  split_ifs with h h2
  · have hx : x - ⌊x⌋ = 1/2 := h
    linarith
  · have hx : x - ⌊x⌋ = 1/2 := h
    push_cast
    linarith
  · rw [round_eq]
    have := Int.lt_floor_add_one (x + 1/2)
    push_cast at this ⊢
    linarith

theorem rnd_le (x : ℚ) : (rnd x : ℚ) ≤ x + 1/2 := by
  unfold rnd
  split_ifs with h h2
  · have hx : x - ⌊x⌋ = 1/2 := h
    linarith
  · have hx : x - ⌊x⌋ = 1/2 := h
    push_cast
    linarith
  · rw [round_eq]
    have := Int.floor_le (x + 1/2)
    push_cast at this ⊢
    linarith

theorem rnd_nonneg {x : ℚ} (h : 0 ≤ x) : 0 ≤ rnd x := by
  have h1 := le_rnd x
  have h2 : (-1 : ℚ) < (rnd x : ℚ) := by linarith
  have h3 : (-1 : ℤ) < rnd x := by exact_mod_cast h2
  omega

theorem int_le_rnd {k : ℤ} {x : ℚ} (h : (k : ℚ) ≤ x) : k ≤ rnd x := by
  have h1 := le_rnd x
  have h2 : ((k - 1 : ℤ) : ℚ) < (rnd x : ℚ) := by push_cast; linarith
  have h3 : (k - 1 : ℤ) < rnd x := by exact_mod_cast h2
  omega

theorem rnd_intCast (n : ℤ) : rnd (n : ℚ) = n := by
  unfold rnd
  rw [Int.fract_intCast]
  norm_num [round_intCast]

theorem round1_nonneg {x : ℚ} (h : 0 ≤ x) : 0 ≤ round1 x := by
  unfold round1
  have h1 : (0 : ℤ) ≤ rnd (x * 10) := rnd_nonneg (by linarith)
  have h2 : (0 : ℚ) ≤ (rnd (x * 10) : ℚ) := by exact_mod_cast h1
  linarith

theorem round2_nonneg {x : ℚ} (h : 0 ≤ x) : 0 ≤ round2 x := by
  unfold round2
  have h1 : (0 : ℤ) ≤ rnd (x * 100) := rnd_nonneg (by linarith)
  have h2 : (0 : ℚ) ≤ (rnd (x * 100) : ℚ) := by exact_mod_cast h1
  linarith

theorem ratSqrtRound_floor_le {q : ℚ} (hq : 0 ≤ q)
    (n : ℕ) (hn : n = sqrtFloorNat q) :
    ((n : ℝ) ≤ Real.sqrt (q : ℝ)) ∧ Real.sqrt (q : ℝ) < (n : ℝ) + 1 := by
  have hq' : (0 : ℝ) ≤ (q : ℝ) := by exact_mod_cast hq
  have hfl : (0 : ℤ) ≤ ⌊q⌋ := Int.floor_nonneg.mpr hq
  have htn : ((Int.toNat ⌊q⌋ : ℤ) : ℚ) ≤ q := by
    rw [Int.toNat_of_nonneg hfl]; exact Int.floor_le q
  constructor
  · rw [Real.le_sqrt (by positivity) hq']
    have h1 : (n : ℚ) ^ 2 ≤ ((Int.toNat ⌊q⌋ : ℤ) : ℚ) := by
      have := Nat.sqrt_le' (Int.toNat ⌊q⌋)
      rw [hn]
      simp only [sqrtFloorNat]
      push_cast
      exact_mod_cast this
    have h2 : (n : ℚ) ^ 2 ≤ q := le_trans h1 htn
    exact_mod_cast h2
  · rw [Real.sqrt_lt' (by positivity)]
    have h1 : (Int.toNat ⌊q⌋) < (n + 1) ^ 2 := by
      rw [hn]; simp only [sqrtFloorNat]; exact Nat.lt_succ_sqrt' _
    have h2 : q < ((Int.toNat ⌊q⌋ : ℤ) : ℚ) + 1 := by
      rw [Int.toNat_of_nonneg hfl]; exact Int.lt_floor_add_one q
    have h3 : ((Int.toNat ⌊q⌋ : ℤ) : ℚ) + 1 ≤ ((n : ℚ) + 1) ^ 2 := by
      have : (Int.toNat ⌊q⌋ : ℚ) + 1 ≤ (((n + 1) ^ 2 : ℕ) : ℚ) := by
        exact_mod_cast Nat.succ_le_of_lt h1
      push_cast at this ⊢
      linarith
    have h4 : q < ((n : ℚ) + 1) ^ 2 := lt_of_lt_of_le h2 h3
    exact_mod_cast h4

/-- The value `ratSqrtRound q` is within `1/2` of the real square root of `q`:
it is a nearest integer to `√q`. -/
theorem ratSqrtRound_near {q : ℚ} (hq : 0 ≤ q) :
    |(ratSqrtRound q : ℝ) - Real.sqrt (q : ℝ)| ≤ 1/2 := by
  have hq' : (0 : ℝ) ≤ (q : ℝ) := by exact_mod_cast hq
  obtain ⟨hlo, hhi⟩ := ratSqrtRound_floor_le hq (sqrtFloorNat q) rfl
  set n := sqrtFloorNat q with hn
  unfold ratSqrtRound
  rw [← hn]
  split_ifs with h1 h2 h3
  · -- 4q < (2n+1)² : √q < n + 1/2, answer n
    have h1R : 4 * (q : ℝ) < (2 * (n : ℝ) + 1) ^ 2 := by exact_mod_cast h1
    have hR : (q : ℝ) < ((n : ℝ) + 1/2) ^ 2 := by nlinarith
    have hs : Real.sqrt (q : ℝ) < (n : ℝ) + 1/2 :=
      (Real.sqrt_lt' (by positivity)).mpr hR
    rw [abs_sub_comm, abs_of_nonneg (by linarith)]
    linarith
  · -- tie, even floor: answer n with √q = n + 1/2
    have h2R : 4 * (q : ℝ) = (2 * (n : ℝ) + 1) ^ 2 := by exact_mod_cast h2
    have hs : Real.sqrt (q : ℝ) = (n : ℝ) + 1/2 := by
      have hqe : (q : ℝ) = ((n : ℝ) + 1/2) ^ 2 := by nlinarith
      rw [hqe, Real.sqrt_sq (by positivity)]
    rw [hs, abs_sub_comm, abs_of_nonneg (by linarith)]
    linarith
  · -- tie, odd floor: answer n+1 with √q = n + 1/2
    have h2R : 4 * (q : ℝ) = (2 * (n : ℝ) + 1) ^ 2 := by exact_mod_cast h2
    have hs : Real.sqrt (q : ℝ) = (n : ℝ) + 1/2 := by
      have hqe : (q : ℝ) = ((n : ℝ) + 1/2) ^ 2 := by nlinarith
      rw [hqe, Real.sqrt_sq (by positivity)]
    rw [hs, abs_of_nonneg (by push_cast; linarith)]
    push_cast
    linarith
  · -- 4q > (2n+1)² : n + 1/2 < √q < n + 1, answer n+1
    have h4 : ((2 * n + 1 : ℕ) : ℚ) ^ 2 < 4 * q := by
      rcases lt_trichotomy (4 * q) (((2 * n + 1 : ℕ) : ℚ) ^ 2) with h | h | h
      · exact absurd h h1
      · exact absurd h h2
      · exact h
    have h4R : (2 * (n : ℝ) + 1) ^ 2 < 4 * (q : ℝ) := by exact_mod_cast h4
    have hR : ((n : ℝ) + 1/2) ^ 2 < (q : ℝ) := by nlinarith
    have hs : (n : ℝ) + 1/2 < Real.sqrt (q : ℝ) :=
      (Real.lt_sqrt (by positivity)).mpr hR
    rw [abs_of_nonneg (by push_cast; linarith)]
    push_cast
    linarith

/-- C1: for every annual demand `D ≥ 0`, ordering cost `S ≥ 0` and holding
cost per unit `H > 0`, `eoq` returns (as an integer) a nearest integer to
`√(2DS/H)`, i.e. `round(sqrt(2*D*S/H))`; in particular
`eoq 12000 2500 50 = 1095`. -/
theorem eoq_returns_rounded_sqrt :
    (∀ D S H : ℚ, 0 ≤ D → 0 ≤ S → 0 < H →
      ∃ r : ℕ, eoq D S H = Except.ok r ∧
        |(r : ℝ) - Real.sqrt (2 * (D : ℝ) * (S : ℝ) / (H : ℝ))| ≤ 1/2) ∧
    eoq 12000 2500 50 = Except.ok 1095 := by
  constructor
  · intro D S H hD hS hH
    have hq : 0 ≤ 2 * D * S / H := by positivity
    refine ⟨ratSqrtRound (2 * D * S / H), ?_, ?_⟩
    · unfold eoq
      rw [if_neg (by linarith), if_neg (by linarith)]
    · have hcast : ((2 * D * S / H : ℚ) : ℝ) = 2 * (D : ℝ) * (S : ℝ) / (H : ℝ) := by
        push_cast
        ring
      rw [← hcast]
      exact ratSqrtRound_near hq
  · have h1 : sqrtFloorNat (2 * (12000 : ℚ) * 2500 / 50) = 1095 := by
      norm_num [sqrtFloorNat]
      simp
      norm_num
    unfold eoq
    rw [if_neg (by norm_num), if_neg (by norm_num), ratSqrtRound, h1]
    rw [if_pos (by push_cast; norm_num)]

/-- Witness for C1 at `D = 4`, `S = 2`, `H = 1`: the radicand is `16`. -/
theorem eoq_returns_rounded_sqrt_witness :
    ∃ r : ℕ, eoq 4 2 1 = Except.ok r ∧
      |(r : ℝ) - Real.sqrt (2 * ((4 : ℚ) : ℝ) * ((2 : ℚ) : ℝ) / ((1 : ℚ) : ℝ))| ≤ 1/2 :=
  eoq_returns_rounded_sqrt.1 4 2 1 (by norm_num) (by norm_num) (by norm_num)

/-- C2: with `excessStock = max 0 (cs - (rop + eoq))` as the pipeline
computes it, the tag `alert_status` and the action `_action` are exactly
the strict-order four-way spec classification; in particular
`cs = rop + eoq` is never tagged EXCESS (and is HEALTHY once the earlier
branches do not fire), and `cs < ss` is tagged CRITICAL regardless of the
other fields. -/
theorem alert_status_is_four_way (cs ss rop eq : ℤ) :
    (alert_status cs ss rop eq =
        tierStatusString (specTier cs ss rop (max 0 (cs - (rop + eq)))) ∧
      _action cs ss rop (max 0 (cs - (rop + eq))) =
        tierActionString (specTier cs ss rop (max 0 (cs - (rop + eq))))) ∧
    (cs = rop + eq → alert_status cs ss rop eq ≠ "🟡 EXCESS STOCK") ∧
    (cs < ss → alert_status cs ss rop eq = "🔴 CRITICAL – Below Safety Stock") ∧
    (cs = rop + eq → 0 ≤ eq → ss ≤ cs → alert_status cs ss rop eq = "🟢 HEALTHY") := by
  have hiff : (0 < max 0 (cs - (rop + eq))) ↔ rop + eq < cs := by
    constructor
    · intro h
      rcases le_or_lt (cs - (rop + eq)) 0 with h1 | h1
      · rw [max_eq_left h1] at h
        omega
      · omega
    · intro h
      rw [max_eq_right (by omega)]
      omega
  refine ⟨⟨?_, ?_⟩, ?_, ?_, ?_⟩
  · unfold alert_status specTier
    simp only [hiff]
    split_ifs <;> rfl
  · unfold _action specTier
    split_ifs <;> rfl
  · intro h
    unfold alert_status
    split_ifs with h1 h2 h3
    · simp
    · simp
    · exact absurd h3 (by omega)
    · simp
  · intro h
    unfold alert_status
    rw [if_pos h]
  · intro h1 h2 h3
    unfold alert_status
    rw [if_neg (by omega), if_neg (by omega), if_neg (by omega)]

/-- Witness for C2 at the spec's boundary example
`cs = 500, ss = 300, rop = 300, eoq = 200` (`cs = rop + eoq`). -/
theorem alert_status_is_four_way_witness :
    alert_status 500 300 300 200 ≠ "🟡 EXCESS STOCK" ∧
    alert_status 500 300 300 200 = "🟢 HEALTHY" :=
  ⟨(alert_status_is_four_way 500 300 300 200).2.1 (by norm_num),
   (alert_status_is_four_way 500 300 300 200).2.2.2 (by norm_num) (by norm_num)
     (by norm_num)⟩

/-- C6: the three divide-by-zero edge cases are guarded and return `0.0`
normally: `annual_ordering_cost` when `EOQ = 0`, `days_of_supply` when the
daily demand `D / working_days` is `0`, and `stockout_risk` when the
reorder point is `0`. -/
theorem divide_by_zero_guards :
    (∀ D S : ℚ, annual_ordering_cost D 0 S = 0) ∧
    (∀ cs : ℤ, ∀ D w : ℚ, D / w = 0 → days_of_supply cs D w = 0) ∧
    (∀ cs : ℤ, stockout_risk cs 0 = 0) := by
  refine ⟨?_, ?_, ?_⟩
  · intro D S
    unfold annual_ordering_cost
    norm_num
  · intro cs D w h
    unfold days_of_supply
    rw [h]
    norm_num
  · intro cs
    unfold stockout_risk
    norm_num

/-- Witness for C6: ordering cost with `EOQ = 0`, days of supply with zero
annual demand, stockout risk with `ROP = 0`, all evaluate to `0`. -/
theorem divide_by_zero_guards_witness :
    annual_ordering_cost 12000 0 2500 = 0 ∧
    days_of_supply 5 0 250 = 0 ∧
    stockout_risk 5 0 = 0 :=
  ⟨divide_by_zero_guards.1 12000 2500,
   divide_by_zero_guards.2.1 5 0 250 (by norm_num),
   divide_by_zero_guards.2.2 5⟩

theorem exceptMap_nil (f : α → Except EngineError β) :
    exceptMap f [] = .ok [] := rfl

theorem exceptMap_cons_ok {f : α → Except EngineError β} {a : α} {l : List α}
    {out : List β} (h : exceptMap f (a :: l) = .ok out) :
    ∃ b bs, f a = .ok b ∧ exceptMap f l = .ok bs ∧ out = b :: bs := by
  unfold exceptMap at h
  cases hfa : f a with
  | error e => rw [hfa] at h; simp [Bind.bind, Except.bind] at h
  | ok b =>
    rw [hfa] at h
    cases hml : exceptMap f l with
    | error e => rw [hml] at h; simp [Bind.bind, Except.bind] at h
    | ok bs =>
      rw [hml] at h
      simp [Bind.bind, Except.bind, pure, Except.pure] at h
      exact ⟨b, bs, rfl, rfl, h.symm⟩

theorem exceptMap_mem_ok {f : α → Except EngineError β} :
    ∀ {l : List α} {out : List β}, exceptMap f l = .ok out →
      ∀ b ∈ out, ∃ a ∈ l, f a = .ok b := by
  intro l
  induction l with
  | nil =>
    intro out h b hb
    unfold exceptMap at h
    simp [pure, Except.pure] at h
    subst h
    simp at hb
  | cons hd tl ih =>
    intro out h b hb
    obtain ⟨b0, bs, hhd, htl, hout⟩ := exceptMap_cons_ok h
    subst hout
    rcases List.mem_cons.mp hb with hb | hb
    · exact ⟨hd, List.mem_cons_self hd tl, hb ▸ hhd⟩
    · obtain ⟨a, ha, hfa⟩ := ih htl b hb
      exact ⟨a, List.mem_cons_of_mem hd ha, hfa⟩

theorem exceptMap_error_of_mem {f : α → Except EngineError β} :
    ∀ {l : List α}, (∃ a ∈ l, ∃ e, f a = .error e) →
      ∃ e, exceptMap f l = .error e := by
  intro l
  induction l with
  | nil => rintro ⟨a, ha, _⟩; simp at ha
  | cons hd tl ih =>
    rintro ⟨a, ha, e, hfa⟩
    rcases List.mem_cons.mp ha with rfl | ha
    · refine ⟨e, ?_⟩
      unfold exceptMap
      rw [hfa]
      rfl
    · cases hhd : f hd with
      | error e' =>
        refine ⟨e', ?_⟩
        unfold exceptMap
        rw [hhd]
        rfl
      | ok b =>
        obtain ⟨e'', htl⟩ := ih ⟨a, ha, e, hfa⟩
        refine ⟨e'', ?_⟩
        unfold exceptMap
        rw [hhd, htl]
        rfl

/-- C5: `eoq` raises the spec's `InvalidInput` error exactly when the
holding cost per unit is `≤ 0`, and `run_optimization` does not catch it:
a single row whose holding cost per unit (`Unit_Cost_INR *
Holding_Cost_Pct`) is non-positive makes the whole run return an error
(`Except` yields no partial output by construction). -/
theorem invalid_input_fails_whole_run :
    (∀ D S H : ℚ, eoq D S H = .error .invalidInput ↔ H ≤ 0) ∧
    (∀ ps : List CategoryParams, ∀ oc z lt w : ℚ,
      (∃ p ∈ ps, p.unit_cost_inr * p.holding_cost_pct ≤ 0) →
      ∃ e, run_optimization ps oc z lt w = .error e) := by
  constructor
  · intro D S H
    constructor
    · intro h
      unfold eoq at h
      split_ifs at h with h1 h2
      · exact h1
      · exact absurd h (by simp)
    · intro h
      unfold eoq
      rw [if_pos h]
  · intro ps oc z lt w ⟨p, hp, hneg⟩
    apply exceptMap_error_of_mem
    refine ⟨p, hp, .invalidInput, ?_⟩
    unfold processRow
    have : eoq p.annual_demand oc (p.unit_cost_inr * p.holding_cost_pct) =
        .error .invalidInput := by
      unfold eoq
      rw [if_pos hneg]
    rw [this]
    rfl

/-- Witness for C5: `eoq` with `H = 0` errors, and a one-row table whose
holding cost per unit is `10 * (-1) < 0` fails the whole run. -/
theorem invalid_input_fails_whole_run_witness :
    (eoq 12000 2500 0 = .error .invalidInput) ∧
    ∃ e, run_optimization [⟨"Electronics", 10, -1, 12000, 500, 800⟩]
        2500 (33/20) 14 250 = .error e :=
  ⟨(invalid_input_fails_whole_run.1 12000 2500 0).mpr (by norm_num),
   invalid_input_fails_whole_run.2 [⟨"Electronics", 10, -1, 12000, 500, 800⟩]
     2500 (33/20) 14 250
     ⟨⟨"Electronics", 10, -1, 12000, 500, 800⟩, by simp, by norm_num⟩⟩

theorem processRow_ok_elim {oc z lt w : ℚ} {r : CategoryParams}
    {m : CategoryMetrics} (h : processRow oc z lt w r = .ok m) :
    ∃ eq ss, eoq r.annual_demand oc (r.unit_cost_inr * r.holding_cost_pct) = .ok eq ∧
      safety_stock r.demand_std_dev lt z 30 = .ok ss ∧
      m = mkMetrics oc lt w r eq ss := by
  unfold processRow at h
  cases heq : eoq r.annual_demand oc (r.unit_cost_inr * r.holding_cost_pct) with
  | error e => rw [heq] at h; simp [Bind.bind, Except.bind] at h
  | ok eq0 =>
    rw [heq] at h
    cases hss : safety_stock r.demand_std_dev lt z 30 with
    | error e => rw [hss] at h; simp [Bind.bind, Except.bind] at h
    | ok ss0 =>
      rw [hss] at h
      simp [Bind.bind, Except.bind, pure, Except.pure] at h
      exact ⟨eq0, ss0, rfl, rfl, h.symm⟩

theorem safety_stock_ok_nonneg {σ lt z ss : ℚ} {s : ℤ}
    (h : safety_stock σ lt z ss = .ok s) (hσ : 0 ≤ σ) (hz : 0 ≤ z) : 0 ≤ s := by
  unfold safety_stock at h
  split_ifs at h with h1
  have h2 : rndMulSqrt (z * σ) (lt / ss) = s := Except.ok.inj h
  rw [← h2]
  unfold rndMulSqrt
  rw [if_neg (by push_neg; exact mul_nonneg hz hσ)]
  exact Int.natCast_nonneg _

theorem reorder_point_ge_ss {D w lt : ℚ} (ss : ℤ)
    (hD : 0 ≤ D) (hw : 0 < w) (hlt : 0 ≤ lt) :
    ss ≤ reorder_point D w lt ss := by
  unfold reorder_point
  apply int_le_rnd
  have : 0 ≤ D / w * lt := by positivity
  linarith

theorem reorder_point_nonneg {D w lt : ℚ} {ss : ℤ}
    (hD : 0 ≤ D) (hw : 0 < w) (hlt : 0 ≤ lt) (hss : 0 ≤ ss) :
    0 ≤ reorder_point D w lt ss := by
  unfold reorder_point
  apply rnd_nonneg
  have h1 : 0 ≤ D / w * lt := by positivity
  have h2 : (0 : ℚ) ≤ (ss : ℚ) := by exact_mod_cast hss
  linarith

theorem days_of_supply_nonneg {cs : ℤ} {D w : ℚ} (hcs : 0 ≤ cs) :
    0 ≤ days_of_supply cs D w := by
  unfold days_of_supply
  split_ifs with h
  · apply round1_nonneg
    have : (0 : ℚ) ≤ (cs : ℚ) := by exact_mod_cast hcs
    positivity
  · exact le_refl 0

theorem stockout_risk_nonneg (cs rop : ℤ) : 0 ≤ stockout_risk cs rop := by
  unfold stockout_risk
  split_ifs with h
  · exact le_max_left 0 _
  · exact le_refl 0

theorem pos_max_sub_iff (a b : ℤ) : 0 < max 0 (a - b) ↔ b < a := by
  rcases le_or_lt a b with h | h
  · rw [max_eq_left (by omega)]
    omega
  · rw [max_eq_right (by omega)]
    omega

theorem classify_agrees_pointwise (cs ss rop : ℤ) (eq : ℕ) :
    (if cs < ss then "CRITICAL" else if cs < rop then "REORDER"
      else if 0 < max 0 (cs - (rop + (eq : ℤ))) then "EXCESS" else "HEALTHY")
    = statusLevel (alert_status cs ss rop (eq : ℤ)) := by
  simp only [pos_max_sub_iff]
  unfold alert_status
  split_ifs <;> simp [statusLevel]

/-- C4: on every row the pipeline produces, the classifier's independent
re-derivation `classify_alert` names the same tier as the tag
`Alert_Status` the pipeline already attached. -/
theorem classifier_agrees_with_pipeline_tag
    (ps : List CategoryParams) (oc z lt w : ℚ) (out : List CategoryMetrics)
    (hrun : run_optimization ps oc z lt w = .ok out) :
    ∀ m ∈ out, classify_alert m = statusLevel m.alert_status := by
  intro m hm
  obtain ⟨p, hp, hpr⟩ := exceptMap_mem_ok hrun m hm
  obtain ⟨eq, ss, heq, hss, hm'⟩ := processRow_ok_elim hpr
  subst hm'
  unfold classify_alert mkMetrics
  simp only []
  exact classify_agrees_pointwise p.current_stock ss
    (reorder_point p.annual_demand w lt ss) eq

theorem classify_alert_cases (m : CategoryMetrics) :
    classify_alert m = "CRITICAL" ∨ classify_alert m = "REORDER" ∨
    classify_alert m = "EXCESS" ∨ classify_alert m = "HEALTHY" := by
  unfold classify_alert
  split_ifs <;> simp

/-- C7: the generated alert report never contains a HEALTHY row; every
remaining row's priority is its tier's entry in `ALERT_THRESHOLDS`
(`CRITICAL = 1`, `REORDER = 2`, `EXCESS = 3`; `HEALTHY = 4` in the table),
and the report is sorted ascending by priority. -/
theorem alert_report_filtered_and_sorted (now : String) (inv : List CategoryMetrics) :
    (∀ a ∈ generate_alerts now inv,
      a.alert_level ≠ "HEALTHY" ∧
      ALERT_THRESHOLDS.lookup a.alert_level = some a.priority ∧
      (a.priority = 1 ∨ a.priority = 2 ∨ a.priority = 3)) ∧
    List.Sorted (fun a b : AlertRecord => a.priority ≤ b.priority)
      (generate_alerts now inv) ∧
    ALERT_THRESHOLDS.lookup "HEALTHY" = some 4 := by
  refine ⟨?_, ?_, by rfl⟩
  · intro a ha
    unfold generate_alerts at ha
    rw [List.mem_insertionSort, List.mem_filter] at ha
    obtain ⟨ham, hneq⟩ := ha
    obtain ⟨m, hm, rfl⟩ := List.mem_map.mp ham
    have hne : (enrichAlert now m).alert_level ≠ "HEALTHY" := by
      simpa using hneq
    refine ⟨hne, ?_, ?_⟩
    · rcases classify_alert_cases m with h | h | h | h
      · simp [enrichAlert, h, ALERT_THRESHOLDS, List.lookup]
      · simp [enrichAlert, h, ALERT_THRESHOLDS, List.lookup]
      · simp [enrichAlert, h, ALERT_THRESHOLDS, List.lookup]
      · exact absurd (by simp [enrichAlert, h]) hne
    · rcases classify_alert_cases m with h | h | h | h
      · left; simp [enrichAlert, h, ALERT_THRESHOLDS, List.lookup]
      · right; left; simp [enrichAlert, h, ALERT_THRESHOLDS, List.lookup]
      · right; right; simp [enrichAlert, h, ALERT_THRESHOLDS, List.lookup]
      · exact absurd (by simp [enrichAlert, h]) hne
  · unfold generate_alerts
    haveI ht : IsTotal AlertRecord (fun a b => a.priority ≤ b.priority) :=
      ⟨fun a b => Nat.le_total _ _⟩
    haveI htr : IsTrans AlertRecord (fun a b => a.priority ≤ b.priority) :=
      ⟨fun a b c h1 h2 => Nat.le_trans h1 h2⟩
    exact List.sorted_insertionSort _ _

theorem eoq_zero_demand : eoq (0 : ℚ) 2500 (10 * (1/10)) = .ok 0 := by
  norm_num [eoq, ratSqrtRound, sqrtFloorNat]

theorem safety_stock_neg_sigma :
    safety_stock (-2) 14 (33/20) 30 = .ok (-2) := by
  have h1 : sqrtFloorNat ((33/20 * -2 : ℚ) ^ 2 * (14 / 30)) = 2 := by
    norm_num [sqrtFloorNat]
    simp
    norm_num
  unfold safety_stock rndMulSqrt
  rw [if_neg (by norm_num), if_pos (by norm_num)]
  rw [ratSqrtRound, h1]
  rw [if_pos (by push_cast; norm_num)]
  norm_num

/-- C8 counterexample: on the one-row table `pNegSigma` (annual demand
`0`, demand std-dev `-2`, holding cost per unit `1`), the pipeline
accepts the row and produces `Safety_Stock = -2 < 0`, refuting the claim
that every accepted row yields a non-negative safety stock. -/
theorem pipeline_safety_stock_negative_cex :
    (run_optimization [pNegSigma] 2500 (33/20) 14 250).map
        (fun out => out.map CategoryMetrics.safety_stock) = .ok [-2] ∧
    (-2 : ℤ) < 0 := by
  constructor
  · have hrun : run_optimization [pNegSigma] 2500 (33/20) 14 250 =
        .ok [mkMetrics 2500 14 250 pNegSigma 0 (-2)] := by
      unfold run_optimization exceptMap processRow
      rw [show pNegSigma.annual_demand = 0 from rfl,
          show pNegSigma.unit_cost_inr = 10 from rfl,
          show pNegSigma.holding_cost_pct = 1/10 from rfl,
          show pNegSigma.demand_std_dev = -2 from rfl]
      rw [eoq_zero_demand, safety_stock_neg_sigma]
      rfl
    rw [hrun]
    rfl
  · norm_num

/-- C8 (amended): for inputs with non-negative annual demand, demand
std-dev and current stock, every row the default-parameter pipeline
produces has non-negative EOQ, safety stock, reorder point and excess
stock, and non-negative days-of-supply and stockout-risk. -/
theorem pipeline_metrics_nonneg
    (ps : List CategoryParams) (out : List CategoryMetrics)
    (hrun : run_optimization ps 2500 (33/20) 14 250 = .ok out)
    (hps : ∀ p ∈ ps, 0 ≤ p.annual_demand ∧ 0 ≤ p.demand_std_dev ∧
      0 ≤ p.current_stock) :
    ∀ m ∈ out, 0 ≤ (m.eoq_units : ℤ) ∧ 0 ≤ m.safety_stock ∧
      0 ≤ m.reorder_point ∧ 0 ≤ m.excess_stock ∧
      0 ≤ m.days_of_supply ∧ 0 ≤ m.stockout_risk_pct := by
  intro m hm
  obtain ⟨p, hp, hpr⟩ := exceptMap_mem_ok hrun m hm
  obtain ⟨hD, hσ, hcs⟩ := hps p hp
  obtain ⟨eq, ss, heq, hss, hm'⟩ := processRow_ok_elim hpr
  have hssn : 0 ≤ ss := safety_stock_ok_nonneg hss hσ (by norm_num)
  subst hm'
  refine ⟨Int.natCast_nonneg _, hssn, ?_, ?_, ?_, ?_⟩
  · exact reorder_point_nonneg hD (by norm_num) (by norm_num) hssn
  · exact le_max_left 0 _
  · exact days_of_supply_nonneg hcs
  · exact stockout_risk_nonneg _ _

theorem safety_stock_zero_sigma :
    safety_stock 0 14 (33/20) 30 = .ok 0 := by
  unfold safety_stock rndMulSqrt
  rw [if_neg (by norm_num), if_neg (by norm_num)]
  norm_num [ratSqrtRound, sqrtFloorNat]

theorem run_pGood :
    run_optimization [pGood] 2500 (33/20) 14 250 =
      .ok [mkMetrics 2500 14 250 pGood 0 0] := by
  unfold run_optimization exceptMap processRow
  rw [show pGood.annual_demand = 0 from rfl,
      show pGood.unit_cost_inr = 10 from rfl,
      show pGood.holding_cost_pct = 1/10 from rfl,
      show pGood.demand_std_dev = 0 from rfl]
  rw [eoq_zero_demand, safety_stock_zero_sigma]
  rfl

/-- Witness for C8 (amended) on the concrete one-row table `pGood`. -/
theorem pipeline_metrics_nonneg_witness :
    0 ≤ ((mkMetrics 2500 14 250 pGood 0 0).eoq_units : ℤ) ∧
    0 ≤ (mkMetrics 2500 14 250 pGood 0 0).safety_stock ∧
    0 ≤ (mkMetrics 2500 14 250 pGood 0 0).reorder_point ∧
    0 ≤ (mkMetrics 2500 14 250 pGood 0 0).excess_stock ∧
    0 ≤ (mkMetrics 2500 14 250 pGood 0 0).days_of_supply ∧
    0 ≤ (mkMetrics 2500 14 250 pGood 0 0).stockout_risk_pct :=
  pipeline_metrics_nonneg [pGood] [mkMetrics 2500 14 250 pGood 0 0]
    run_pGood
    (by intro p hp; rw [List.mem_singleton] at hp; subst hp
        exact ⟨by norm_num [pGood], by norm_num [pGood], by norm_num [pGood]⟩)
    (mkMetrics 2500 14 250 pGood 0 0) (List.mem_singleton.mpr rfl)

theorem classify_healthy_iff (m : CategoryMetrics) :
    classify_alert m = "HEALTHY" ↔
      (¬ m.current_stock < m.safety_stock ∧ ¬ m.current_stock < m.reorder_point ∧
        ¬ 0 < m.excess_stock) := by
  unfold classify_alert
  split_ifs <;> simp_all

theorem countP_partition (A B C D : α → Bool) :
    ∀ l : List α,
      (∀ x ∈ l, (A x).toNat + (B x).toNat + (C x).toNat + (D x).toNat = 1) →
      l.countP A + l.countP B + l.countP C + l.countP D = l.length := by
  intro l
  induction l with
  | nil => intro _; simp
  | cons hd tl ih =>
    intro h
    have hh := h hd (List.mem_cons_self _ _)
    have ht := ih (fun x hx => h x (List.mem_cons_of_mem _ hx))
    simp only [List.countP_cons, List.length_cons]
    cases hA : A hd <;> cases hB : B hd <;> cases hC : C hd <;> cases hD : D hd <;>
      rw [hA, hB, hC, hD] at hh <;> simp [hA, hB, hC, hD] at hh ⊢ <;> omega

theorem toNat_decide (p : Prop) [Decidable p] :
    (decide p).toNat = if p then 1 else 0 := by
  by_cases h : p <;> simp [h]

theorem row_exactly_one {m : CategoryMetrics}
    (hsr : m.safety_stock ≤ m.reorder_point)
    (hex : m.excess_stock =
      max 0 (m.current_stock - (m.reorder_point + (m.eoq_units : ℤ)))) :
    (critB m).toNat + (reorB m).toNat + (excB m).toNat + (healthyB m).toNat = 1 := by
  have hpos : 0 < m.excess_stock ↔
      m.reorder_point + (m.eoq_units : ℤ) < m.current_stock := by
    rw [hex]
    exact pos_max_sub_iff _ _
  have heqz : (0 : ℤ) ≤ (m.eoq_units : ℤ) := Int.natCast_nonneg _
  have hiff := classify_healthy_iff m
  unfold critB reorB excB healthyB
  rw [toNat_decide, toNat_decide, toNat_decide, toNat_decide]
  simp only [hiff, hpos]
  split_ifs <;> omega

/-- C10: over a default-parameter pipeline output produced from rows with
non-negative annual demand and demand std-dev, the three KPI masks
(critical / reorder / excess) are pairwise disjoint on every row, and the
residual `healthy = total - critical - reorder - excess` equals the number
of rows the classifier labels HEALTHY, hence is never negative. -/
theorem kpi_tiers_partition
    (ps : List CategoryParams) (out : List CategoryMetrics)
    (hrun : run_optimization ps 2500 (33/20) 14 250 = .ok out)
    (hps : ∀ p ∈ ps, 0 ≤ p.annual_demand ∧ 0 ≤ p.demand_std_dev) :
    (∀ m ∈ out,
      ¬(critB m = true ∧ reorB m = true) ∧
      ¬(critB m = true ∧ excB m = true) ∧
      ¬(reorB m = true ∧ excB m = true)) ∧
    (alert_summary_stats out).healthy = (out.countP healthyB : ℤ) ∧
    0 ≤ (alert_summary_stats out).healthy := by
  have hrow : ∀ m ∈ out,
      m.safety_stock ≤ m.reorder_point ∧
      m.excess_stock =
        max 0 (m.current_stock - (m.reorder_point + (m.eoq_units : ℤ))) := by
    intro m hm
    obtain ⟨p, hp, hpr⟩ := exceptMap_mem_ok hrun m hm
    obtain ⟨hD, hσ⟩ := hps p hp
    obtain ⟨eq, ss, heq, hss, hm2⟩ := processRow_ok_elim hpr
    subst hm2
    constructor
    · exact reorder_point_ge_ss ss hD (by norm_num) (by norm_num)
    · rfl
  have hone : ∀ m ∈ out,
      (critB m).toNat + (reorB m).toNat + (excB m).toNat + (healthyB m).toNat = 1 := by
    intro m hm
    obtain ⟨hsr, hex⟩ := hrow m hm
    exact row_exactly_one hsr hex
  have hsum := countP_partition critB reorB excB healthyB out hone
  refine ⟨?_, ?_, ?_⟩
  · intro m hm
    obtain ⟨hsr, hex⟩ := hrow m hm
    have hpos : 0 < m.excess_stock ↔
        m.reorder_point + (m.eoq_units : ℤ) < m.current_stock := by
      rw [hex]
      exact pos_max_sub_iff _ _
    have heqz : (0 : ℤ) ≤ (m.eoq_units : ℤ) := Int.natCast_nonneg _
    refine ⟨?_, ?_, ?_⟩
    · rintro ⟨hX, hY⟩
      have h1 : m.current_stock < m.safety_stock := of_decide_eq_true hX
      have h2 : m.safety_stock ≤ m.current_stock ∧ m.current_stock < m.reorder_point :=
        of_decide_eq_true hY
      omega
    · rintro ⟨hX, hY⟩
      have h1 : m.current_stock < m.safety_stock := of_decide_eq_true hX
      have h2 := hpos.mp (of_decide_eq_true hY)
      omega
    · rintro ⟨hX, hY⟩
      have h1 : m.safety_stock ≤ m.current_stock ∧ m.current_stock < m.reorder_point :=
        of_decide_eq_true hX
      have h2 := hpos.mp (of_decide_eq_true hY)
      omega
  · unfold alert_summary_stats
    simp only []
    omega
  · unfold alert_summary_stats
    simp only []
    omega

/-- Witness for C10 on the concrete one-row table `pGood`. -/
theorem kpi_tiers_partition_witness :
    ¬(critB (mkMetrics 2500 14 250 pGood 0 0) = true ∧
        reorB (mkMetrics 2500 14 250 pGood 0 0) = true) ∧
    (alert_summary_stats [mkMetrics 2500 14 250 pGood 0 0]).healthy =
      (([mkMetrics 2500 14 250 pGood 0 0]).countP healthyB : ℤ) ∧
    0 ≤ (alert_summary_stats [mkMetrics 2500 14 250 pGood 0 0]).healthy := by
  have h := kpi_tiers_partition [pGood] [mkMetrics 2500 14 250 pGood 0 0] run_pGood
    (by
      intro p hp
      rw [List.mem_singleton] at hp
      subst hp
      exact ⟨by norm_num [pGood], by norm_num [pGood]⟩)
  exact ⟨(h.1 _ (List.mem_singleton.mpr rfl)).1, h.2.1, h.2.2⟩

theorem exceptMap_map_out {f : α → Except EngineError β} {g : β → γ} {g' : α → γ}
    (hg : ∀ a b, f a = .ok b → g b = g' a) :
    ∀ {l : List α} {out : List β}, exceptMap f l = .ok out →
      out.map g = l.map g' := by
  intro l
  induction l with
  | nil =>
    intro out h
    unfold exceptMap at h
    simp [pure, Except.pure] at h
    subst h
    simp
  | cons hd tl ih =>
    intro out h
    obtain ⟨b, bs, hhd, htl, hout⟩ := exceptMap_cons_ok h
    subst hout
    simp [hg hd b hhd, ih htl]

theorem savingsRow_ok_elim {b o lt z : ℚ} {r : CategoryParams} {s : SavingsRecord}
    (h : savingsRow b o lt z r = .ok s) :
    ∃ eq ss, safety_stock r.demand_std_dev lt z 30 = .ok ss ∧
      eoq r.annual_demand o (r.unit_cost_inr * r.holding_cost_pct) = .ok eq ∧
      s = mkSavings b o r eq ss := by
  unfold savingsRow at h
  cases hss : safety_stock r.demand_std_dev lt z 30 with
  | error e => rw [hss] at h; simp [Bind.bind, Except.bind] at h
  | ok ss0 =>
    rw [hss] at h
    cases heq : eoq r.annual_demand o (r.unit_cost_inr * r.holding_cost_pct) with
    | error e => rw [heq] at h; simp [Bind.bind, Except.bind] at h
    | ok eq0 =>
      rw [heq] at h
      simp [Bind.bind, Except.bind, pure, Except.pure] at h
      exact ⟨eq0, ss0, rfl, rfl, h.symm⟩

theorem cost_savings_ok_elim {params : List CategoryParams}
    {b o lt z w : ℚ} {out : List SavingsRecord}
    (h : cost_savings_analysis params b o lt z w = .ok out) :
    ∃ rows, exceptMap (savingsRow b o lt z) params = .ok rows ∧
      out = rows ++ [totalRow rows] := by
  unfold cost_savings_analysis at h
  cases hmap : exceptMap (savingsRow b o lt z) params with
  | error e => rw [hmap] at h; simp [Bind.bind, Except.bind] at h
  | ok rows =>
    rw [hmap] at h
    simp [Bind.bind, Except.bind, pure, Except.pure] at h
    exact ⟨rows, rfl, h.symm⟩

theorem safety_stock_zero_z : safety_stock 0 14 0 30 = .ok 0 := by
  unfold safety_stock rndMulSqrt
  rw [if_neg (by norm_num), if_neg (by norm_num)]
  norm_num [ratSqrtRound, sqrtFloorNat]

theorem eoq_savA : eoq 2 1 (1 * 1) = .ok 2 := by
  norm_num [eoq, ratSqrtRound, sqrtFloorNat]
  simp
  norm_num

theorem eoq_savB : eoq 8 1 (1 * 1) = .ok 4 := by
  norm_num [eoq, ratSqrtRound, sqrtFloorNat]
  simp
  norm_num

theorem savingsRow_savA : savingsRow 4 1 14 0 savA = .ok (mkSavings 4 1 savA 2 0) := by
  unfold savingsRow
  rw [show savA.demand_std_dev = 0 from rfl, show savA.annual_demand = 2 from rfl,
      show savA.unit_cost_inr = 1 from rfl, show savA.holding_cost_pct = 1 from rfl]
  rw [safety_stock_zero_z, eoq_savA]
  rfl

theorem savingsRow_savB : savingsRow 4 1 14 0 savB = .ok (mkSavings 4 1 savB 4 0) := by
  unfold savingsRow
  rw [show savB.demand_std_dev = 0 from rfl, show savB.annual_demand = 8 from rfl,
      show savB.unit_cost_inr = 1 from rfl, show savB.holding_cost_pct = 1 from rfl]
  rw [safety_stock_zero_z, eoq_savB]
  rfl

theorem cost_savings_demo_run :
    cost_savings_analysis [savA, savB] 4 1 14 0 250 =
      .ok [mkSavings 4 1 savA 2 0, mkSavings 4 1 savB 4 0,
        totalRow [mkSavings 4 1 savA 2 0, mkSavings 4 1 savB 4 0]] := by
  have hmapAB : exceptMap (savingsRow 4 1 14 0) [savA, savB] =
      .ok [mkSavings 4 1 savA 2 0, mkSavings 4 1 savB 4 0] := by
    simp only [exceptMap, savingsRow_savA, savingsRow_savB]
    rfl
  unfold cost_savings_analysis
  rw [hmapAB]
  rfl

/-- C3: every successful comparator run emits the per-category rows in
input order (their category column equals the input's, in order) followed
by exactly one TOTAL row as the last row, and the TOTAL row's saving% is
recomputed from the aggregate before/after sums of the per-category rows
(`round`ed to 1 decimal as stored), not from the per-row percentages;
on the concrete table `[savA, savB]` the stored percentages are
`[20, 0, 7.7]` and the TOTAL value `7.7` differs from the mean `10` of
the per-row percentages. -/
theorem cost_savings_rows_and_total :
    (∀ params : List CategoryParams, ∀ b o lt z w : ℚ,
      ∀ out : List SavingsRecord,
      cost_savings_analysis params b o lt z w = .ok out →
      out.map SavingsRecord.category =
        params.map CategoryParams.category ++ ["TOTAL"] ∧
      ∀ t, out.getLast? = some t →
        t.category = "TOTAL" ∧
        (0 < (out.dropLast.map SavingsRecord.before_cost_inr).sum →
          t.saving_pct = round1
            (((out.dropLast.map SavingsRecord.before_cost_inr).sum -
              (out.dropLast.map SavingsRecord.after_cost_inr).sum) /
              (out.dropLast.map SavingsRecord.before_cost_inr).sum * 100))) ∧
    ((cost_savings_analysis [savA, savB] 4 1 14 0 250).map
        (fun out => out.map SavingsRecord.saving_pct) = .ok [20, 0, 77/10] ∧
      (77/10 : ℚ) ≠ round1 ((20 + 0) / 2)) := by
  constructor
  · intro params b o lt z w out hok
    obtain ⟨rows, hmap, hout⟩ := cost_savings_ok_elim hok
    subst hout
    constructor
    · rw [List.map_append]
      have hcat : rows.map SavingsRecord.category =
          params.map CategoryParams.category :=
        exceptMap_map_out
          (fun a s hs => by
            obtain ⟨eq, ss, _, _, hs2⟩ := savingsRow_ok_elim hs
            subst hs2
            rfl)
          hmap
      rw [hcat]
      rfl
    · intro t ht
      rw [List.getLast?_concat] at ht
      have ht' : t = totalRow rows := by
        injection ht with h
        exact h.symm
      subst ht'
      rw [List.dropLast_concat]
      exact ⟨rfl, fun _ => rfl⟩
  · constructor
    · rw [cost_savings_demo_run]
      show Except.ok _ = _
      norm_num [mkSavings, totalRow, savA, savB, total_inventory_cost,
        annual_holding_cost, annual_ordering_cost, round1, round2, rnd,
        Int.fract, round_eq]
    · norm_num [round1, rnd, Int.fract, round_eq]

/-- Witness for C3's universally quantified part at the demo table. -/
theorem cost_savings_rows_and_total_witness :
    [mkSavings 4 1 savA 2 0, mkSavings 4 1 savB 4 0,
        totalRow [mkSavings 4 1 savA 2 0, mkSavings 4 1 savB 4 0]].map
      SavingsRecord.category =
    [savA, savB].map CategoryParams.category ++ ["TOTAL"] :=
  (cost_savings_rows_and_total.1 [savA, savB] 4 1 14 0 250 _
    cost_savings_demo_run).1

/-- C9 counterexample: with a one-row metrics table and an *empty* alert
table, `combined_report` emits the row with *no* alert columns (`none`),
not with `Alert_Level = HEALTHY`: the claim's "including the case where
the alert table is empty" fails on the code. -/
theorem combined_report_empty_alerts_cex :
    (combined_report [mHealthy] []).map CombinedRow.alert_level = [none] ∧
    (none : Option String) ≠ some "HEALTHY" := by
  constructor
  · rfl
  · simp

/-- C9 (amended): `combined_report` left-joins the alert fields by
category when the alert table is non-empty, and any metrics row with no
matching alert row gets `Alert_Level = HEALTHY` and `Action_Message =
"No action needed"`; with an *empty* alert table the metrics rows are
returned without alert columns. -/
theorem combined_report_defaults (inv : List CategoryMetrics)
    (alerts : List AlertRecord) :
    (combined_report inv [] = inv.map (fun m => ⟨m, none, none⟩)) ∧
    (alerts ≠ [] →
      ∀ i, (hi : i < inv.length) →
      (∀ a ∈ alerts, a.category ≠ inv[i].category) →
      (combined_report inv alerts)[i]? =
        some ⟨inv[i], some "HEALTHY", some "No action needed"⟩) := by
  constructor
  · rfl
  · intro hne i hi hno
    unfold combined_report
    rw [if_neg (by simpa using hne)]
    rw [List.getElem?_map, List.getElem?_eq_getElem hi]
    have hfind : alerts.find? (fun a => a.category == inv[i].category) = none := by
      rw [List.find?_eq_none]
      intro a ha
      simpa using hno a ha
    simp [hfind]

/-- Witness for C9 (amended): a one-row metrics table joined against a
non-empty alert table with no matching category yields the HEALTHY
defaults. -/
theorem combined_report_defaults_witness :
    (combined_report [mHealthy] [] = [⟨mHealthy, none, none⟩]) ∧
    (combined_report [mHealthy] [aOther])[0]? =
      some ⟨mHealthy, some "HEALTHY", some "No action needed"⟩ :=
  ⟨(combined_report_defaults [mHealthy] [aOther]).1,
   (combined_report_defaults [mHealthy] [aOther]).2 (by simp) 0 (by simp)
     (by
       intro a ha
       rw [List.mem_singleton] at ha
       subst ha
       simp [aOther, mHealthy])⟩

/-- Witness for C4 on the concrete pipeline output for `pGood`. -/
theorem classifier_agrees_with_pipeline_tag_witness :
    classify_alert (mkMetrics 2500 14 250 pGood 0 0) =
      statusLevel (mkMetrics 2500 14 250 pGood 0 0).alert_status :=
  classifier_agrees_with_pipeline_tag [pGood] 2500 (33/20) 14 250
    [mkMetrics 2500 14 250 pGood 0 0] run_pGood
    (mkMetrics 2500 14 250 pGood 0 0) (List.mem_singleton.mpr rfl)

/-- Witness for C7 on the one-row report generated from `mrowCrit`. -/
theorem alert_report_filtered_and_sorted_witness :
    (enrichAlert "2025-02-01" mrowCrit).alert_level ≠ "HEALTHY" ∧
    ALERT_THRESHOLDS.lookup (enrichAlert "2025-02-01" mrowCrit).alert_level =
      some (enrichAlert "2025-02-01" mrowCrit).priority ∧
    ((enrichAlert "2025-02-01" mrowCrit).priority = 1 ∨
      (enrichAlert "2025-02-01" mrowCrit).priority = 2 ∨
      (enrichAlert "2025-02-01" mrowCrit).priority = 3) :=
  (alert_report_filtered_and_sorted "2025-02-01" [mrowCrit]).1
    (enrichAlert "2025-02-01" mrowCrit)
    (by
      unfold generate_alerts
      rw [List.mem_insertionSort, List.mem_filter]
      refine ⟨List.mem_map_of_mem _ (List.mem_singleton.mpr rfl), ?_⟩
      simp [enrichAlert, classify_alert, mrowCrit])
